import Mathlib

/-!
Shallow embedding of the `wegoare/Google-earth-engine` repository:
the FastAPI serving script `predictor_api/main.py` and the feature
engineering in the training script `yield-model/crop_yield_model.py`.

Conventions of the embedding:
* Python floats are modelled as rationals (`ℚ`).
* The opaque scikit-learn model's `predict` method is an abstract parameter
  `predict : ℕ → ℚ → Except String ℚ` taking a crop index and an NDVI value;
  `Except.error e` models a raised exception with message `e` (the only
  exception source inside the handler bodies besides the re-raised
  `HTTPException`s).
* Each endpoint handler returns the HTTP outcome together with the number of
  times `model.predict` was invoked while handling the request.
* JSON detail payloads of `HTTPException` are modelled by the `JVal` type.
-/

/-- JSON-like values, used for the `detail` payload of HTTP errors. -/
inductive JVal where
  | str (s : String)
  | num (q : ℚ)
  | arr (xs : List JVal)
  | obj (fields : List (String × JVal))
deriving Repr

/-- An `HTTPException`: a status code plus a JSON detail payload. -/
structure HTTPErr where
  status_code : ℕ
  detail : JVal
deriving Repr

/-- Whether a JSON detail value is a structured record (a JSON object). -/
def JVal.isObj : JVal → Bool
  | JVal.obj _ => true
  | _ => false

/-- Python's `str.title()` on a list of characters: an alphabetic character is
uppercased when the previous character is not alphabetic and lowercased
otherwise (ASCII restriction of Python's cased-character rule). -/
def pyTitleAux : List Char → Bool → List Char
  | [], _ => []
  | c :: rest, prevAlpha =>
    (if c.isAlpha then (if prevAlpha then c.toLower else c.toUpper) else c) ::
      pyTitleAux rest c.isAlpha

/-- Python's `str.title()`. -/
def pyTitle (s : String) : String := ⟨pyTitleAux s.toList false⟩

/-- Round a rational to the nearest integer, ties to even
(Python 3 `round` semantics). -/
def roundHalfEven (q : ℚ) : ℤ :=
  if q - ⌊q⌋ = 1 / 2 then (if ⌊q⌋ % 2 = 0 then ⌊q⌋ else ⌊q⌋ + 1) else round q

/-- Python's `round(x, 2)`, idealised over `ℚ`. -/
def round2 (q : ℚ) : ℚ := (roundHalfEven (q * 100) : ℚ) / 100

namespace PredictorApi

/-- Request body of `POST /api/predict-yield` (`YieldInput`). -/
structure YieldInput where
  crop_type : String
  ndvi : ℚ

/-- Request body of `POST /api/recommended-crop` (`NDVIInput`). -/
structure NDVIInput where
  ndvi : ℚ

/-- Successful response body of `/api/predict-yield`. -/
structure PredictResponse where
  predicted_yield : ℚ
  crop_type : String
  units : String
  model_version : String
deriving Repr, DecidableEq

/-- One entry of the `all_options` list built by `/api/recommended-crop`. -/
structure CropOption where
  crop : String
  predicted_yield : ℚ
deriving Repr, DecidableEq

/-- Successful response body of `/api/recommended-crop`. -/
structure RecommendResponse where
  recommended_crop : String
  predicted_yield : ℚ
  all_options : List CropOption
  units : String
deriving Repr, DecidableEq

/-- The model kind held by the global `model` variable: either the model
deserialized from disk (with its optional `classes_` attribute) or the
placeholder, which carries the hard-coded synthetic training data it was
fitted on. -/
inductive ModelKind where
  | production (classes : Option (List String))
  | placeholder (X : List (List ℚ)) (y : List ℚ)
deriving Repr

/-- `np.linspace(0.3, 0.9, 10)` as exact rationals:
`0.3 + j * (0.9 - 0.3) / 9` for `j = 0, …, 9`. -/
def linspace_03_09_10 : List ℚ :=
  (List.range 10).map (fun j => 3 / 10 + j * ((9 / 10 - 3 / 10) / 9))

/-- `create_placeholder_model` (`main.py`): the synthetic design matrix `X`
(rows `[crop_index, ndvi]`), the targets `y = (i+1)*2 + ndvi*5`, and the
five-crop list. -/
def create_placeholder_model : ModelKind × List String :=
  let crops := ["Wheat", "Rice", "Maize", "Millet", "Barley"]
  let X := (List.range crops.length).flatMap
    (fun i => linspace_03_09_10.map (fun ndvi => [(i : ℚ), ndvi]))
  let y := (List.range crops.length).flatMap
    (fun i => linspace_03_09_10.map (fun ndvi => ((i : ℚ) + 1) * 2 + ndvi * 5))
  (ModelKind.placeholder X y, crops)

/-- Outcome of the attempt to load the pickled model at startup: the file is
missing, `joblib.load` (or anything else in the `try` block) raises, or the
load succeeds yielding a model whose `classes_` attribute is `some` list of
labels or absent. -/
inductive LoadOutcome where
  | fileMissing
  | loadError (msg : String)
  | loaded (classes : Option (List String))
deriving Repr

/-- The module-level `try/except` of `main.py`: on success the loaded model is
kept and `CROP_LIST` is the title-cased `classes_` list (or the hard-coded
default when the attribute is absent); on a missing file or any load error the
placeholder model and its crop list are used instead. -/
def startup : LoadOutcome → ModelKind × List String
  | LoadOutcome.loaded classes =>
    (ModelKind.production classes,
      match classes with
      | some cs => cs.map pyTitle
      | none => ["Wheat", "Rice", "Maize", "Millet", "Barley"])
  | LoadOutcome.fileMissing => create_placeholder_model
  | LoadOutcome.loadError _ => create_placeholder_model

/-- Detail payload of the invalid-crop-type 400 error of `/api/predict-yield`. -/
def invalid_crop_detail (crop_list : List String) (received : String) : JVal :=
  JVal.obj [("error", JVal.str "Invalid crop type"),
            ("available_crops", JVal.arr (crop_list.map JVal.str)),
            ("received", JVal.str received)]

/-- Detail payload of the invalid-NDVI 400 error of `/api/predict-yield`. -/
def invalid_ndvi_detail (received : ℚ) : JVal :=
  JVal.obj [("error", JVal.str "Invalid NDVI"),
            ("message", JVal.str "NDVI must be between 0 and 1"),
            ("received", JVal.num received)]

/-- Detail payload of the generic 500 error of `/api/predict-yield`. -/
def prediction_failed_detail (msg : String) : JVal :=
  JVal.obj [("error", JVal.str "Prediction failed"),
            ("message", JVal.str msg)]

/-- Handler of `POST /api/predict-yield`. Returns the HTTP outcome and the
number of `model.predict` invocations. -/
def predict_yield (predict : ℕ → ℚ → Except String ℚ) (crop_list : List String)
    (data : YieldInput) : Except HTTPErr PredictResponse × ℕ :=
  let crop_type := pyTitle data.crop_type
  if crop_type ∉ crop_list then
    (Except.error ⟨400, invalid_crop_detail crop_list data.crop_type⟩, 0)
  else if ¬ (0 ≤ data.ndvi ∧ data.ndvi ≤ 1) then
    (Except.error ⟨400, invalid_ndvi_detail data.ndvi⟩, 0)
  else
    let crop_idx := crop_list.indexOf crop_type
    match predict crop_idx data.ndvi with
    | Except.ok prediction =>
      (Except.ok ⟨round2 prediction, crop_type, "tons/hectare", "1.0"⟩, 1)
    | Except.error e =>
      (Except.error ⟨500, prediction_failed_detail e⟩, 1)

/-- The scoring loop of `/api/recommended-crop`
(`for i, crop in enumerate(CROP_LIST)`), carried out from index `i`.
Returns the accumulated `results` list (or the first raised exception) and the
number of `model.predict` invocations. -/
def scoreLoop (predict : ℕ → ℚ → Except String ℚ) (ndvi : ℚ) (i : ℕ) :
    List String → Except String (List CropOption) × ℕ
  | [] => (Except.ok [], 0)
  | crop :: rest =>
    match predict i ndvi with
    | Except.error e => (Except.error e, 1)
    | Except.ok prediction =>
      let (r, n) := scoreLoop predict ndvi (i + 1) rest
      (r.map (fun l => ⟨crop, round2 prediction⟩ :: l), n + 1)

/-- Python's `max(results, key=lambda x: x["predicted_yield"])` on a non-empty
list `x :: xs`: fold keeping the current best, replacing it only on a strictly
greater key, so the first maximum wins. -/
def pyMaxFold (x : CropOption) (xs : List CropOption) : CropOption :=
  xs.foldl (fun b y => if b.predicted_yield < y.predicted_yield then y else b) x

/-- Handler of `POST /api/recommended-crop`. Returns the HTTP outcome and the
number of `model.predict` invocations. -/
def recommend_crop (predict : ℕ → ℚ → Except String ℚ) (crop_list : List String)
    (data : NDVIInput) : Except HTTPErr RecommendResponse × ℕ :=
  if ¬ (0 ≤ data.ndvi ∧ data.ndvi ≤ 1) then
    (Except.error ⟨400, JVal.str "NDVI must be between 0 and 1"⟩, 0)
  else
    match scoreLoop predict data.ndvi 0 crop_list with
    | (Except.error e, n) =>
      (Except.error ⟨500, JVal.str ("Recommendation failed: " ++ e)⟩, n)
    | (Except.ok results, n) =>
      match results with
      | [] =>
        (Except.error
          ⟨500, JVal.str "Recommendation failed: max() arg is an empty sequence"⟩, n)
      | r :: rs =>
        let best := pyMaxFold r rs
        (Except.ok ⟨best.crop, best.predicted_yield, results, "tons/hectare"⟩, n)

/-- `needle` occurs as a contiguous sublist of `hay`. -/
def containsSublist (needle : List Char) : List Char → Bool
  | [] => needle.isEmpty
  | c :: t => needle.isPrefixOf (c :: t) || containsSublist needle t

/-- The process-wide globals of the serving script: the model's `predict`
callable, the model's `str()` representation, and `CROP_LIST`. -/
structure ServerState where
  predict : ℕ → ℚ → Except String ℚ
  modelStr : String
  crop_list : List String

/-- Response of `GET /health`. -/
structure HealthResponse where
  status : String
  timestamp : String
  model_status : String
  available_crops : List String

/-- Handler of `GET /health` as a transformer of the global state
(`now` stands for `datetime.now().isoformat()`). -/
def health_check (st : ServerState) (now : String) : HealthResponse × ServerState :=
  (⟨"healthy", now,
    if containsSublist "placeholder".toList st.modelStr.toList then "placeholder"
    else "production",
    st.crop_list⟩, st)

/-- Handler of `POST /api/predict-yield` as a transformer of the global state:
the body only reads `model` and `CROP_LIST`. -/
def handle_predict_yield (st : ServerState) (data : YieldInput) :
    (Except HTTPErr PredictResponse × ℕ) × ServerState :=
  (predict_yield st.predict st.crop_list data, st)

/-- Handler of `POST /api/recommended-crop` as a transformer of the global
state: the body only reads `model` and `CROP_LIST`. -/
def handle_recommend_crop (st : ServerState) (data : NDVIInput) :
    (Except HTTPErr RecommendResponse × ℕ) × ServerState :=
  (recommend_crop st.predict st.crop_list data, st)

/-- The `results` list the scoring loop builds when every `model.predict` call
succeeds with value `f i ndvi`: one entry per crop, in order, holding the
rounded prediction. -/
def scored (f : ℕ → ℚ → ℚ) (x : ℚ) : ℕ → List String → List CropOption
  | _, [] => []
  | i, crop :: rest => ⟨crop, round2 (f i x)⟩ :: scored f x (i + 1) rest

end PredictorApi

namespace YieldModel

/-- `data['temp_range'] = data['temp_max'] - data['temp_min']`
(training script, per row). -/
def temp_range (temp_max temp_min : ℚ) : ℚ := temp_max - temp_min

/-- `data['humidity_range'] = data['humidity_max'] - data['humidity_min']`
(training script, per row). -/
def humidity_range (humidity_max humidity_min : ℚ) : ℚ :=
  humidity_max - humidity_min

/-- The lambda applied to `data['month']` in the training script:
`'Winter' if x in [12,1,2] else 'Spring' if x in [3,4,5] else
'Summer' if x in [6,7,8] else 'Autumn'`. -/
def season_of_month (x : ℤ) : String :=
  if x ∈ [12, 1, 2] then "Winter"
  else if x ∈ [3, 4, 5] then "Spring"
  else if x ∈ [6, 7, 8] then "Summer"
  else "Autumn"

/-- The derived features computed inside the example `predict_yield` function
of the training script (`temp_range`, `humidity_range`, `season`). -/
def predict_yield_derived (temp_min temp_max humidity_min humidity_max : ℚ)
    (month : ℤ) : ℚ × ℚ × String :=
  (temp_max - temp_min, humidity_max - humidity_min,
    if month ∈ [12, 1, 2] then "Winter"
    else if month ∈ [3, 4, 5] then "Spring"
    else if month ∈ [6, 7, 8] then "Summer"
    else "Autumn")

end YieldModel

/-! ### Derived descriptions and evaluation lemmas for the handlers -/

namespace PredictorApi


theorem scoreLoop_ok (f : ℕ → ℚ → ℚ) (x : ℚ) :
    ∀ (l : List String) (i : ℕ),
      scoreLoop (fun j v => Except.ok (f j v)) x i l =
        (Except.ok (scored f x i l), l.length) := by
  intro l
  induction l with
  | nil => intro i; rfl
  | cons c cs ih => intro i; simp [scoreLoop, scored, ih, Except.map]

theorem scored_length (f : ℕ → ℚ → ℚ) (x : ℚ) :
    ∀ (l : List String) (i : ℕ), (scored f x i l).length = l.length := by
  intro l
  induction l with
  | nil => intro i; rfl
  | cons c cs ih => intro i; simp [scored, ih]

theorem scored_getElem? (f : ℕ → ℚ → ℚ) (x : ℚ) :
    ∀ (l : List String) (i j : ℕ),
      (scored f x i l)[j]? = (l[j]?).map (fun c => ⟨c, round2 (f (i + j) x)⟩) := by
  intro l
  induction l with
  | nil => intro i j; simp [scored]
  | cons c cs ih =>
    intro i j
    cases j with
    | zero => simp [scored]
    | succ j =>
      simp only [scored, List.getElem?_cons_succ]
      rw [ih (i + 1) j]
      have h : i + 1 + j = i + (j + 1) := by omega
      rw [h]

theorem pyMaxFold_cons (x y : CropOption) (ys : List CropOption) :
    pyMaxFold x (y :: ys) =
      pyMaxFold (if x.predicted_yield < y.predicted_yield then y else x) ys := rfl

theorem pyMaxFold_le :
    ∀ (xs : List CropOption) (x : CropOption),
      ∀ y ∈ x :: xs, y.predicted_yield ≤ (pyMaxFold x xs).predicted_yield := by
  intro xs
  induction xs with
  | nil =>
    intro x y hy
    rw [List.mem_singleton.mp hy]
    exact le_refl _
  | cons z zs ih =>
    intro x y hy
    rw [pyMaxFold_cons]
    by_cases hxz : x.predicted_yield < z.predicted_yield
    · rw [if_pos hxz]
      rcases List.mem_cons.mp hy with hyx | hy2
      · rw [hyx]
        exact le_trans (le_of_lt hxz) (ih z z (List.mem_cons_self z zs))
      · exact ih z y hy2
    · rw [if_neg hxz]
      rcases List.mem_cons.mp hy with hyx | hy2
      · rw [hyx]
        exact ih x x (List.mem_cons_self x zs)
      · rcases List.mem_cons.mp hy2 with hyz | hy3
        · rw [hyz]
          exact le_trans (le_of_not_lt hxz) (ih x x (List.mem_cons_self x zs))
        · exact ih x y (List.mem_cons.mpr (Or.inr hy3))

theorem pyMaxFold_mem :
    ∀ (xs : List CropOption) (x : CropOption), pyMaxFold x xs ∈ x :: xs := by
  intro xs
  induction xs with
  | nil => intro x; exact List.mem_singleton.mpr rfl
  | cons z zs ih =>
    intro x
    rw [pyMaxFold_cons]
    by_cases hxz : x.predicted_yield < z.predicted_yield
    · rw [if_pos hxz]
      exact List.mem_cons.mpr (Or.inr (ih z))
    · rw [if_neg hxz]
      rcases List.mem_cons.mp (ih x) with h | h
      · rw [h]
        exact List.mem_cons_self x (z :: zs)
      · exact List.mem_cons.mpr (Or.inr (List.mem_cons.mpr (Or.inr h)))

/-- The fold behind Python's `max` returns the first maximum: the list splits
into a strictly-smaller prefix, the returned element, and a no-greater
suffix. -/
theorem pyMaxFold_split :
    ∀ (xs : List CropOption) (x : CropOption),
      ∃ l1 l2, x :: xs = l1 ++ pyMaxFold x xs :: l2 ∧
        (∀ y ∈ l1, y.predicted_yield < (pyMaxFold x xs).predicted_yield) ∧
        (∀ y ∈ l2, y.predicted_yield ≤ (pyMaxFold x xs).predicted_yield) := by
  intro xs
  induction xs with
  | nil =>
    intro x
    exact ⟨[], [], rfl, by intro y hy; simp at hy, by intro y hy; simp at hy⟩
  | cons z zs ih =>
    intro x
    rw [pyMaxFold_cons]
    by_cases hxz : x.predicted_yield < z.predicted_yield
    · rw [if_pos hxz]
      obtain ⟨l1, l2, heq, h1, h2⟩ := ih z
      refine ⟨x :: l1, l2, ?_, ?_, h2⟩
      · rw [List.cons_append, ← heq]
      · intro y hy
        rcases List.mem_cons.mp hy with hyx | hy2
        · rw [hyx]
          exact lt_of_lt_of_le hxz (pyMaxFold_le zs z z (List.mem_cons_self z zs))
        · exact h1 y hy2
    · rw [if_neg hxz]
      obtain ⟨l1, l2, heq, h1, h2⟩ := ih x
      cases l1 with
      | nil =>
        rw [List.nil_append] at heq
        obtain ⟨hx2, hzs⟩ := List.cons_eq_cons.mp heq
        refine ⟨[], z :: l2, ?_, ?_, ?_⟩
        · rw [List.nil_append, ← hx2, ← hzs]
        · intro y hy
          simp at hy
        · intro y hy
          rcases List.mem_cons.mp hy with hyz | hy2
          · rw [hyz, ← hx2]
            exact le_of_not_lt hxz
          · exact h2 y hy2
      | cons a l1t =>
        rw [List.cons_append] at heq
        obtain ⟨hx2, hzs⟩ := List.cons_eq_cons.mp heq
        refine ⟨x :: z :: l1t, l2, ?_, ?_, h2⟩
        · rw [List.cons_append, List.cons_append, ← hzs]
        · intro y hy
          have hxlt : x.predicted_yield < (pyMaxFold x zs).predicted_yield := by
            have h := h1 a (List.mem_cons_self a l1t)
            rw [← hx2] at h
            exact h
          rcases List.mem_cons.mp hy with hyx | hy2
          · rw [hyx]
            exact hxlt
          · rcases List.mem_cons.mp hy2 with hyz | hy3
            · rw [hyz]
              exact lt_of_le_of_lt (le_of_not_lt hxz) hxlt
            · exact h1 y (List.mem_cons.mpr (Or.inr hy3))

theorem predict_yield_bad_crop (p : ℕ → ℚ → Except String ℚ)
    (crops : List String) (s : String) (x : ℚ) (h : pyTitle s ∉ crops) :
    predict_yield p crops ⟨s, x⟩ =
      (Except.error ⟨400, invalid_crop_detail crops s⟩, 0) := by
  simp only [predict_yield]
  rw [if_pos h]

theorem predict_yield_bad_ndvi (p : ℕ → ℚ → Except String ℚ)
    (crops : List String) (s : String) (x : ℚ) (hmem : pyTitle s ∈ crops)
    (h : ¬ (0 ≤ x ∧ x ≤ 1)) :
    predict_yield p crops ⟨s, x⟩ =
      (Except.error ⟨400, invalid_ndvi_detail x⟩, 0) := by
  simp only [predict_yield]
  rw [if_neg (not_not_intro hmem), if_pos h]

theorem predict_yield_valid (p : ℕ → ℚ → Except String ℚ)
    (crops : List String) (s : String) (x : ℚ) (hmem : pyTitle s ∈ crops)
    (h : 0 ≤ x ∧ x ≤ 1) :
    predict_yield p crops ⟨s, x⟩ =
      match p (crops.indexOf (pyTitle s)) x with
      | Except.ok prediction =>
        (Except.ok ⟨round2 prediction, pyTitle s, "tons/hectare", "1.0"⟩, 1)
      | Except.error e => (Except.error ⟨500, prediction_failed_detail e⟩, 1) := by
  simp only [predict_yield]
  rw [if_neg (not_not_intro hmem), if_neg (not_not_intro h)]

theorem recommend_crop_bad_ndvi (p : ℕ → ℚ → Except String ℚ)
    (crops : List String) (x : ℚ) (h : ¬ (0 ≤ x ∧ x ≤ 1)) :
    recommend_crop p crops ⟨x⟩ =
      (Except.error ⟨400, JVal.str "NDVI must be between 0 and 1"⟩, 0) := by
  simp only [recommend_crop]
  rw [if_pos h]

theorem recommend_crop_valid_ok (f : ℕ → ℚ → ℚ) (x : ℚ) (h : 0 ≤ x ∧ x ≤ 1)
    (c : String) (cs : List String) :
    recommend_crop (fun j v => Except.ok (f j v)) (c :: cs) ⟨x⟩ =
      (Except.ok
        ⟨(pyMaxFold ⟨c, round2 (f 0 x)⟩ (scored f x 1 cs)).crop,
         (pyMaxFold ⟨c, round2 (f 0 x)⟩ (scored f x 1 cs)).predicted_yield,
         scored f x 0 (c :: cs), "tons/hectare"⟩,
       (c :: cs).length) := by
  simp only [recommend_crop]
  rw [if_neg (not_not_intro h), scoreLoop_ok f x (c :: cs) 0]
  rfl

/-- C3: on startup the serving script deserializes the pipeline from disk, and
for every possible load error (missing file or any exception raised while
loading) it instead falls back to the placeholder model fitted on the
hard-coded synthetic data, so after startup a model object (production or
placeholder) is always present. -/
theorem startup_model_always_present (o : LoadOutcome) :
    ((o = LoadOutcome.fileMissing ∨ ∃ m, o = LoadOutcome.loadError m) →
      startup o = create_placeholder_model) ∧
    ((∃ cls, (startup o).1 = ModelKind.production cls) ∨
      (startup o).1 = create_placeholder_model.1) := by
  cases o with
  | fileMissing => exact ⟨fun _ => rfl, Or.inr rfl⟩
  | loadError m => exact ⟨fun _ => rfl, Or.inr rfl⟩
  | loaded classes =>
    refine ⟨?_, Or.inl ⟨classes, rfl⟩⟩
    intro h
    rcases h with h | ⟨m, h⟩ <;> simp at h

theorem startup_model_always_present_witness :
    startup LoadOutcome.fileMissing = create_placeholder_model :=
  (startup_model_always_present LoadOutcome.fileMissing).1 (Or.inl rfl)

/-- C5 counterexample: for a loaded model whose label set is `["wheat"]`, the
crop catalog is the title-cased `["Wheat"]`, which equals neither the model's
label set nor the hard-coded five-crop fallback — refuting the claim that the
catalog always equals one of those two. -/
theorem crop_list_differs_from_labels :
    (startup (LoadOutcome.loaded (some ["wheat"]))).2 = ["Wheat"] ∧
    (["Wheat"] : List String) ≠ ["wheat"] ∧
    (["Wheat"] : List String) ≠ ["Wheat", "Rice", "Maize", "Millet", "Barley"] :=
  ⟨by decide, by decide, by decide⟩

/-- C5 (amended): the crop catalog equals the title-cased form of the loaded
model's label list when the model exposes one, and otherwise (label attribute
absent, or the placeholder path) the hard-coded fallback list of exactly five
crops (Wheat, Rice, Maize, Millet, Barley). -/
theorem crop_list_spec (classes : List String) :
    (startup (LoadOutcome.loaded (some classes))).2 = classes.map pyTitle ∧
    (startup (LoadOutcome.loaded none)).2 =
      ["Wheat", "Rice", "Maize", "Millet", "Barley"] ∧
    create_placeholder_model.2 = ["Wheat", "Rice", "Maize", "Millet", "Barley"] ∧
    create_placeholder_model.2.length = 5 :=
  ⟨rfl, rfl, rfl, rfl⟩

/-- C8: after startup the model object and the crop catalog are read-only —
none of the `/health`, `/api/predict-yield`, `/api/recommended-crop` handlers
modifies the server state, so every request observes the same model and the
same catalog. -/
theorem handlers_do_not_modify_state (st : ServerState) (d1 : YieldInput)
    (d2 : NDVIInput) (now : String) :
    (health_check st now).2 = st ∧
    (handle_predict_yield st d1).2 = st ∧
    (handle_recommend_crop st d2).2 = st :=
  ⟨rfl, rfl, rfl⟩

end PredictorApi

namespace YieldModel

/-- C6: the training script engineers exactly two derived numeric features and
one derived categorical feature — `temp_range = temp_max - temp_min`,
`humidity_range = humidity_max - humidity_min`, and `season` mapping months
12, 1, 2 to Winter, months 3, 4, 5 to Spring, months 6, 7, 8 to Summer and
every other month value to Autumn — and the example `predict_yield` function
of the training script computes the same three derived features. -/
theorem derived_features_spec (tmin tmax hmin hmax : ℚ) (m : ℤ) :
    temp_range tmax tmin = tmax - tmin ∧
    humidity_range hmax hmin = hmax - hmin ∧
    (m = 12 ∨ m = 1 ∨ m = 2 → season_of_month m = "Winter") ∧
    (m = 3 ∨ m = 4 ∨ m = 5 → season_of_month m = "Spring") ∧
    (m = 6 ∨ m = 7 ∨ m = 8 → season_of_month m = "Summer") ∧
    (¬ (m = 12 ∨ m = 1 ∨ m = 2) → ¬ (m = 3 ∨ m = 4 ∨ m = 5) →
      ¬ (m = 6 ∨ m = 7 ∨ m = 8) → season_of_month m = "Autumn") ∧
    predict_yield_derived tmin tmax hmin hmax m =
      (temp_range tmax tmin, humidity_range hmax hmin, season_of_month m) := by
  refine ⟨rfl, rfl, ?_, ?_, ?_, ?_, rfl⟩
  · intro h
    rcases h with rfl | rfl | rfl <;> rfl
  · intro h
    rcases h with rfl | rfl | rfl <;> rfl
  · intro h
    rcases h with rfl | rfl | rfl <;> rfl
  · intro h1 h2 h3
    simp only [season_of_month]
    rw [if_neg (by simpa using h1), if_neg (by simpa using h2),
      if_neg (by simpa using h3)]

theorem derived_features_spec_witness :
    season_of_month 12 = "Winter" ∧ season_of_month 4 = "Spring" ∧
    season_of_month 7 = "Summer" ∧ season_of_month 10 = "Autumn" :=
  ⟨(derived_features_spec 0 0 0 0 12).2.2.1 (Or.inl rfl),
   (derived_features_spec 0 0 0 0 4).2.2.2.1 (Or.inr (Or.inl rfl)),
   (derived_features_spec 0 0 0 0 7).2.2.2.2.1 (Or.inr (Or.inl rfl)),
   (derived_features_spec 0 0 0 0 10).2.2.2.2.2.1 (by decide) (by decide)
     (by decide)⟩

end YieldModel

namespace PredictorApi

/-- C2 counterexample: NDVI `-1/2` lies in `[-1, 1]`, yet both endpoints
reject it as an invalid-NDVI client error — the code's range check is
`0 <= ndvi <= 1`, not `[-1, 1]`. -/
theorem ndvi_in_minus1_1_rejected :
    ((-1 : ℚ) ≤ -1/2 ∧ (-1/2 : ℚ) ≤ 1) ∧
    recommend_crop (fun j v => Except.ok (j + v))
        ["Wheat", "Rice", "Maize", "Millet", "Barley"] ⟨-1/2⟩ =
      (Except.error ⟨400, JVal.str "NDVI must be between 0 and 1"⟩, 0) ∧
    predict_yield (fun j v => Except.ok (j + v))
        ["Wheat", "Rice", "Maize", "Millet", "Barley"] ⟨"Wheat", -1/2⟩ =
      (Except.error ⟨400, invalid_ndvi_detail (-1/2)⟩, 0) :=
  ⟨by norm_num, recommend_crop_bad_ndvi _ _ _ (by norm_num),
    predict_yield_bad_ndvi _ _ _ _ (by decide) (by norm_num)⟩

/-- C2 (amended): the code validates NDVI against `[0, 1]`: every request to
either endpoint whose NDVI lies in `[0, 1]` (and, for predict-yield, whose
title-cased crop type is in the catalog) passes the range check and is never
rejected with a client error — any error it still produces is a 500. -/
theorem ndvi_in_0_1_accepted (p : ℕ → ℚ → Except String ℚ)
    (crops : List String) (s : String) (x : ℚ) (h0 : 0 ≤ x) (h1 : x ≤ 1) :
    (0 ≤ x ∧ x ≤ 1) ∧
    (pyTitle s ∈ crops →
      ∀ err, (predict_yield p crops ⟨s, x⟩).1 = Except.error err →
        err.status_code = 500) ∧
    (∀ err, (recommend_crop p crops ⟨x⟩).1 = Except.error err →
      err.status_code = 500) := by
  refine ⟨⟨h0, h1⟩, ?_, ?_⟩
  · intro hmem err herr
    rw [predict_yield_valid p crops s x hmem ⟨h0, h1⟩] at herr
    cases hp : p (crops.indexOf (pyTitle s)) x with
    | ok v =>
      rw [hp] at herr
      simp at herr
    | error e =>
      rw [hp] at herr
      simp only [Except.error.injEq] at herr
      subst herr
      rfl
  · intro err herr
    simp only [recommend_crop] at herr
    rw [if_neg (not_not_intro ⟨h0, h1⟩)] at herr
    rcases hsl : scoreLoop p x 0 crops with ⟨r, n⟩
    rw [hsl] at herr
    cases r with
    | error e =>
      simp only [Except.error.injEq] at herr
      subst herr
      rfl
    | ok results =>
      cases results with
      | nil =>
        simp only [Except.error.injEq] at herr
        subst herr
        rfl
      | cons a as => simp at herr

theorem ndvi_in_0_1_accepted_witness :
    ((0 : ℚ) ≤ 1/2 ∧ (1/2 : ℚ) ≤ 1) ∧
    (HTTPErr.mk 500 (prediction_failed_detail "boom")).status_code = 500 :=
  ⟨⟨by norm_num, by norm_num⟩,
    (ndvi_in_0_1_accepted (fun _ _ => Except.error "boom")
        ["Wheat", "Rice", "Maize", "Millet", "Barley"] "wheat" (1/2)
        (by norm_num) (by norm_num)).2.1 (by decide)
      ⟨500, prediction_failed_detail "boom"⟩
      (by rw [predict_yield_valid _ _ _ _ (by decide)
        ⟨by norm_num, by norm_num⟩])⟩

/-- C4 counterexample: the invalid-NDVI client error of
`/api/recommended-crop` carries a plain string as its detail, not a structured
record, and the 500 error produced when `model.predict` raises embeds the
exception's message — refuting the claim that 400 details are always
structured records and 500 errors never expose failure content. -/
theorem error_detail_shapes_counterexample :
    recommend_crop (fun j v => Except.ok (j + v))
        ["Wheat", "Rice", "Maize", "Millet", "Barley"] ⟨2⟩ =
      (Except.error ⟨400, JVal.str "NDVI must be between 0 and 1"⟩, 0) ∧
    (JVal.str "NDVI must be between 0 and 1").isObj = false ∧
    recommend_crop (fun _ _ => Except.error "boom ndvi=0.5")
        ["Wheat", "Rice", "Maize", "Millet", "Barley"] ⟨1/2⟩ =
      (Except.error ⟨500, JVal.str "Recommendation failed: boom ndvi=0.5"⟩,
        1) := by
  refine ⟨recommend_crop_bad_ndvi _ _ _ (by norm_num), rfl, ?_⟩
  simp only [recommend_crop]
  rw [if_neg (not_not_intro ⟨by norm_num, by norm_num⟩)]
  rfl

/-- If the scoring loop's predict calls succeed strictly below relative index
`k` of the remaining crop list and raise at `k`, the loop propagates that
first exception unchanged. -/
theorem scoreLoop_first_error (p : ℕ → ℚ → Except String ℚ) (x : ℚ)
    (e : String) :
    ∀ (l : List String) (i k : ℕ), k < l.length →
      (∀ j, j < k → ∃ v, p (i + j) x = Except.ok v) →
      p (i + k) x = Except.error e →
      ∃ n, scoreLoop p x i l = (Except.error e, n) := by
  intro l
  induction l with
  | nil =>
    intro i k hk
    exact absurd hk (by simp)
  | cons c cs ih =>
    intro i k hk hpre herr
    cases k with
    | zero =>
      refine ⟨1, ?_⟩
      simp only [scoreLoop]
      rw [show p i x = Except.error e from by simpa using herr]
    | succ k =>
      obtain ⟨v, hv⟩ := hpre 0 (Nat.succ_pos k)
      rw [Nat.add_zero] at hv
      have hk2 : k < cs.length := by simpa using hk
      have hpre2 : ∀ j, j < k → ∃ w, p (i + 1 + j) x = Except.ok w := by
        intro j hj
        obtain ⟨w, hw⟩ := hpre (j + 1) (by omega)
        refine ⟨w, ?_⟩
        rw [show i + 1 + j = i + (j + 1) by omega]
        exact hw
      have herr2 : p (i + 1 + k) x = Except.error e := by
        rw [show i + 1 + k = i + (k + 1) by omega]
        exact herr
      obtain ⟨n, hsl⟩ := ih (i + 1) k hk2 hpre2 herr2
      refine ⟨n + 1, ?_⟩
      simp only [scoreLoop]
      rw [hv, hsl]
      rfl

/-- C4 (amended): input-validation failures map to client errors (HTTP 400) —
with a structured record detail on `/api/predict-yield` but a plain-string
detail on `/api/recommended-crop` — and an exception raised by
`model.predict` maps to an HTTP 500 whose detail embeds the exception's
message. -/
theorem error_mapping_spec (p : ℕ → ℚ → Except String ℚ)
    (crops : List String) (s : String) (x : ℚ) :
    (pyTitle s ∉ crops →
      predict_yield p crops ⟨s, x⟩ =
        (Except.error ⟨400, invalid_crop_detail crops s⟩, 0) ∧
      (invalid_crop_detail crops s).isObj = true) ∧
    (pyTitle s ∈ crops → ¬ (0 ≤ x ∧ x ≤ 1) →
      predict_yield p crops ⟨s, x⟩ =
        (Except.error ⟨400, invalid_ndvi_detail x⟩, 0) ∧
      (invalid_ndvi_detail x).isObj = true) ∧
    (¬ (0 ≤ x ∧ x ≤ 1) →
      recommend_crop p crops ⟨x⟩ =
        (Except.error ⟨400, JVal.str "NDVI must be between 0 and 1"⟩, 0)) ∧
    (∀ e, pyTitle s ∈ crops → 0 ≤ x ∧ x ≤ 1 →
      p (crops.indexOf (pyTitle s)) x = Except.error e →
      (predict_yield p crops ⟨s, x⟩).1 =
        Except.error ⟨500, prediction_failed_detail e⟩) ∧
    (∀ e k, 0 ≤ x ∧ x ≤ 1 → k < crops.length →
      (∀ j, j < k → ∃ v, p j x = Except.ok v) →
      p k x = Except.error e →
      (recommend_crop p crops ⟨x⟩).1 =
        Except.error ⟨500, JVal.str ("Recommendation failed: " ++ e)⟩) := by
  refine ⟨fun h => ⟨predict_yield_bad_crop p crops s x h, rfl⟩,
    fun hm h => ⟨predict_yield_bad_ndvi p crops s x hm h, rfl⟩,
    fun h => recommend_crop_bad_ndvi p crops x h, ?_, ?_⟩
  · intro e hm hx hp
    rw [predict_yield_valid p crops s x hm hx, hp]
  · intro e k hx hk hpre herr
    simp only [recommend_crop]
    rw [if_neg (not_not_intro hx)]
    obtain ⟨n, hsl⟩ := scoreLoop_first_error p x e crops 0 k hk
      (by intro j hj; simpa using hpre j hj) (by simpa using herr)
    rw [hsl]

theorem error_mapping_spec_witness :
    recommend_crop (fun j v => Except.ok (j + v))
        ["Wheat", "Rice", "Maize", "Millet", "Barley"] ⟨3⟩ =
      (Except.error ⟨400, JVal.str "NDVI must be between 0 and 1"⟩, 0) ∧
    (recommend_crop
        (fun j v => if j = 0 then Except.ok v else Except.error "boom")
        ["Wheat", "Rice", "Maize", "Millet", "Barley"] ⟨1/2⟩).1 =
      Except.error ⟨500, JVal.str ("Recommendation failed: " ++ "boom")⟩ :=
  ⟨(error_mapping_spec (fun j v => Except.ok (j + v))
      ["Wheat", "Rice", "Maize", "Millet", "Barley"] "Wheat" 3).2.2.1
    (by norm_num),
   (error_mapping_spec
      (fun j v => if j = 0 then Except.ok v else Except.error "boom")
      ["Wheat", "Rice", "Maize", "Millet", "Barley"] "Wheat" (1/2)).2.2.2.2
    "boom" 1 ⟨by norm_num, by norm_num⟩ (by decide)
    (by
      intro j hj
      have hj0 : j = 0 := by omega
      subst hj0
      exact ⟨1/2, rfl⟩)
    rfl⟩

/-- C7: each prediction endpoint validates its input before invoking the
model: on a crop type outside the catalog or an NDVI rejected by the range
check the handler raises a 400 client error and `model.predict` is invoked
zero times. -/
theorem validation_precedes_predict (p : ℕ → ℚ → Except String ℚ)
    (crops : List String) (s : String) (x : ℚ) :
    (pyTitle s ∉ crops →
      predict_yield p crops ⟨s, x⟩ =
        (Except.error ⟨400, invalid_crop_detail crops s⟩, 0)) ∧
    (pyTitle s ∈ crops → ¬ (0 ≤ x ∧ x ≤ 1) →
      predict_yield p crops ⟨s, x⟩ =
        (Except.error ⟨400, invalid_ndvi_detail x⟩, 0)) ∧
    (¬ (0 ≤ x ∧ x ≤ 1) →
      recommend_crop p crops ⟨x⟩ =
        (Except.error ⟨400, JVal.str "NDVI must be between 0 and 1"⟩, 0)) :=
  ⟨fun h => predict_yield_bad_crop p crops s x h,
   fun hm h => predict_yield_bad_ndvi p crops s x hm h,
   fun h => recommend_crop_bad_ndvi p crops x h⟩

theorem validation_precedes_predict_witness :
    predict_yield (fun j v => Except.ok (j + v))
        ["Wheat", "Rice", "Maize", "Millet", "Barley"] ⟨"Banana", 1/2⟩ =
      (Except.error
        ⟨400, invalid_crop_detail ["Wheat", "Rice", "Maize", "Millet", "Barley"]
          "Banana"⟩, 0) :=
  (validation_precedes_predict (fun j v => Except.ok (j + v))
      ["Wheat", "Rice", "Maize", "Millet", "Barley"] "Banana" (1/2)).1
    (by decide)

end PredictorApi

namespace PredictorApi

/-- C9: crop-type matching in `/api/predict-yield` is case-insensitive up to
title-casing: a request is rejected with the invalid-crop-type error exactly
when the title-cased form of the submitted `crop_type` is not in the catalog,
and the `crop_type` field of a successful response is the title-cased form of
the string received, not the string itself. -/
theorem crop_match_title_case (p : ℕ → ℚ → Except String ℚ)
    (crops : List String) (s : String) (x : ℚ) :
    (predict_yield p crops ⟨s, x⟩ =
        (Except.error ⟨400, invalid_crop_detail crops s⟩, 0) ↔
      pyTitle s ∉ crops) ∧
    (∀ resp n, predict_yield p crops ⟨s, x⟩ = (Except.ok resp, n) →
      resp.crop_type = pyTitle s) := by
  constructor
  · constructor
    · intro heq
      by_contra hmem
      by_cases hx : 0 ≤ x ∧ x ≤ 1
      · rw [predict_yield_valid p crops s x hmem hx] at heq
        cases hp : p (crops.indexOf (pyTitle s)) x with
        | ok v =>
          rw [hp] at heq
          simp at heq
        | error e =>
          rw [hp] at heq
          simp at heq
      · rw [predict_yield_bad_ndvi p crops s x hmem hx] at heq
        simp [invalid_ndvi_detail, invalid_crop_detail] at heq
    · exact predict_yield_bad_crop p crops s x
  · intro resp n heq
    by_cases hmem : pyTitle s ∈ crops
    · by_cases hx : 0 ≤ x ∧ x ≤ 1
      · rw [predict_yield_valid p crops s x hmem hx] at heq
        cases hp : p (crops.indexOf (pyTitle s)) x with
        | ok v =>
          rw [hp] at heq
          simp only [Prod.mk.injEq, Except.ok.injEq] at heq
          obtain ⟨h1, -⟩ := heq
          rw [← h1]
        | error e =>
          rw [hp] at heq
          simp at heq
      · rw [predict_yield_bad_ndvi p crops s x hmem hx] at heq
        simp at heq
    · rw [predict_yield_bad_crop p crops s x hmem] at heq
      simp at heq

theorem crop_match_title_case_witness :
    (⟨round2 0, "Wheat", "tons/hectare", "1.0"⟩ : PredictResponse).crop_type =
      pyTitle "wHEat" :=
  (crop_match_title_case (fun _ _ => Except.ok 0)
      ["Wheat", "Rice", "Maize", "Millet", "Barley"] "wHEat" (1/2)).2
    ⟨round2 0, "Wheat", "tons/hectare", "1.0"⟩ 1
    (by
      rw [predict_yield_valid _ _ _ _ (by decide) ⟨by norm_num, by norm_num⟩]
      rfl)

/-- C1: for every NDVI accepted by validation, `/api/recommended-crop` scores
each catalog crop exactly once at that fixed NDVI — one `model.predict` call
per crop and one `all_options` entry per crop, in catalog order — and returns
as `recommended_crop` a crop whose score is the maximum among all scored
crops (the argmax). -/
theorem recommend_crop_scans_and_returns_argmax (f : ℕ → ℚ → ℚ)
    (crops : List String) (x : ℚ) (h : 0 ≤ x ∧ x ≤ 1) (hne : crops ≠ []) :
    ∃ resp : RecommendResponse,
      recommend_crop (fun j v => Except.ok (f j v)) crops ⟨x⟩ =
        (Except.ok resp, crops.length) ∧
      resp.all_options.length = crops.length ∧
      (∀ (j : ℕ) (c : String), crops[j]? = some c →
        resp.all_options[j]? = some ⟨c, round2 (f j x)⟩) ∧
      ∃ b ∈ resp.all_options, b.crop = resp.recommended_crop ∧
        ∀ y ∈ resp.all_options, y.predicted_yield ≤ b.predicted_yield := by
  cases crops with
  | nil => exact absurd rfl hne
  | cons c cs =>
    refine ⟨_, recommend_crop_valid_ok f x h c cs,
      scored_length f x (c :: cs) 0, ?_, ?_⟩
    · intro j c' hj
      rw [scored_getElem? f x (c :: cs) 0 j, hj]
      simp
    · refine ⟨pyMaxFold ⟨c, round2 (f 0 x)⟩ (scored f x 1 cs), ?_, rfl, ?_⟩
      · exact pyMaxFold_mem (scored f x 1 cs) ⟨c, round2 (f 0 x)⟩
      · intro y hy
        exact pyMaxFold_le (scored f x 1 cs) ⟨c, round2 (f 0 x)⟩ y hy

theorem recommend_crop_scans_and_returns_argmax_witness :
    ∃ resp : RecommendResponse,
      recommend_crop (fun j v => Except.ok ((j : ℚ) + v))
          ["Wheat", "Rice", "Maize", "Millet", "Barley"] ⟨1/2⟩ =
        (Except.ok resp, 5) ∧
      resp.all_options.length = 5 ∧
      (∀ (j : ℕ) (c : String),
        (["Wheat", "Rice", "Maize", "Millet", "Barley"] : List String)[j]? =
          some c →
        resp.all_options[j]? = some ⟨c, round2 ((j : ℚ) + 1/2)⟩) ∧
      ∃ b ∈ resp.all_options, b.crop = resp.recommended_crop ∧
        ∀ y ∈ resp.all_options, y.predicted_yield ≤ b.predicted_yield :=
  recommend_crop_scans_and_returns_argmax (fun j v => (j : ℚ) + v)
    ["Wheat", "Rice", "Maize", "Millet", "Barley"] (1/2)
    ⟨by norm_num, by norm_num⟩ (by simp)

/-- C10: `all_options` has exactly one entry per catalog crop in catalog
order; each reported `predicted_yield` (over which the maximum is taken) is
the raw prediction rounded to two decimal places; the recommendation is the
argmax over those rounded values, ties resolved to the crop earliest in
catalog order (every entry before it is strictly smaller); and the top-level
`predicted_yield` equals that crop's entry in `all_options`. -/
theorem recommend_crop_options_detail (f : ℕ → ℚ → ℚ)
    (crops : List String) (x : ℚ) (h : 0 ≤ x ∧ x ≤ 1) (hne : crops ≠ []) :
    ∃ resp : RecommendResponse,
      recommend_crop (fun j v => Except.ok (f j v)) crops ⟨x⟩ =
        (Except.ok resp, crops.length) ∧
      resp.all_options.length = crops.length ∧
      (∀ (j : ℕ) (c : String), crops[j]? = some c →
        resp.all_options[j]? = some ⟨c, round2 (f j x)⟩) ∧
      ∃ l1 l2,
        resp.all_options =
          l1 ++ (⟨resp.recommended_crop, resp.predicted_yield⟩ : CropOption) ::
            l2 ∧
        (∀ y ∈ l1, y.predicted_yield < resp.predicted_yield) ∧
        (∀ y ∈ l2, y.predicted_yield ≤ resp.predicted_yield) := by
  cases crops with
  | nil => exact absurd rfl hne
  | cons c cs =>
    refine ⟨_, recommend_crop_valid_ok f x h c cs,
      scored_length f x (c :: cs) 0, ?_, ?_⟩
    · intro j c' hj
      rw [scored_getElem? f x (c :: cs) 0 j, hj]
      simp
    · exact pyMaxFold_split (scored f x 1 cs) ⟨c, round2 (f 0 x)⟩

theorem recommend_crop_options_detail_witness :
    ∃ resp : RecommendResponse,
      recommend_crop (fun j v => Except.ok ((0 : ℚ) * (j : ℚ) * v))
          ["Wheat", "Rice", "Maize", "Millet", "Barley"] ⟨1/2⟩ =
        (Except.ok resp, 5) ∧
      resp.all_options.length = 5 ∧
      (∀ (j : ℕ) (c : String),
        (["Wheat", "Rice", "Maize", "Millet", "Barley"] : List String)[j]? =
          some c →
        resp.all_options[j]? = some ⟨c, round2 ((0 : ℚ) * (j : ℚ) * (1/2))⟩) ∧
      ∃ l1 l2,
        resp.all_options =
          l1 ++ (⟨resp.recommended_crop, resp.predicted_yield⟩ : CropOption) ::
            l2 ∧
        (∀ y ∈ l1, y.predicted_yield < resp.predicted_yield) ∧
        (∀ y ∈ l2, y.predicted_yield ≤ resp.predicted_yield) :=
  recommend_crop_options_detail (fun j v => (0 : ℚ) * (j : ℚ) * v)
    ["Wheat", "Rice", "Maize", "Millet", "Barley"] (1/2)
    ⟨by norm_num, by norm_num⟩ (by simp)

end PredictorApi
